import Mathlib

/-!
# Verification of the MFA authentication core (`servicio_autenticacion.py`)

Shallow embedding of the multi-factor authentication service: RFID
validator, gestural PIN validator, biometric pattern matcher, and the
MFA orchestrator.  Python mutation of entities is modelled by returning
the updated entity together with the outcome; `datetime` values are
modelled by a day number plus an intra-day instant; Python floats are
modelled by rationals.  Repository lookups are external collaborators:
each validator is given the entity the repository would return.
-/

/-- Credential lifecycle states (enumeration `EstadoCredencial`). -/
inductive EstadoCredencial where
  | ACTIVA
  | EXPIRADA
  | BLOQUEADA
  | INACTIVA
deriving DecidableEq, Repr

/-- PIN lifecycle states (enumeration `EstadoPin`). -/
inductive EstadoPin where
  | ACTIVO
  | BLOQUEADO
deriving DecidableEq, Repr

/-- A `datetime` value: the calendar day (as an integer day number) plus
an intra-day instant distinguishing moments of the same day. -/
structure FechaHora where
  dia : Int
  instante : Int
deriving DecidableEq, Repr

/-- `datetime.date()`: project a datetime to its calendar day. -/
def FechaHora.date (t : FechaHora) : Int := t.dia

/-- RFID credential entity (`CredencialRFID`). -/
structure Credencial where
  cedula_propietario : String
  fecha_expiracion : Int
  estado : EstadoCredencial
  intentos_fallidos : Nat
  intentos_exitosos : Nat
  ultimo_acceso : Option FechaHora
deriving DecidableEq, Repr

/-- Modelled from the spec: the credential's `esta_vigente` predicate
lives in the entity module, which is not part of the provided source.
Per the spec, validity requires state ACTIVE and evaluation date ≤
expiration date. -/
def Credencial.esta_vigente (c : Credencial) (fecha : Int) : Bool :=
  c.estado == EstadoCredencial.ACTIVA && fecha ≤ c.fecha_expiracion

/-- Gestural PIN entity (`PinGestual`). -/
structure Pin where
  id_area : String
  secuencia_gestos : List Int
  estado : EstadoPin
  intentos_fallidos : Nat
deriving DecidableEq, Repr

/-- Biometric gesture-pattern entity (`PatronGestual`). -/
structure Patron where
  cedula : String
  secuencia_gestos : List Int
  tiempos_entre_gestos : Option (List ℚ)
deriving DecidableEq, Repr

/-- Access record (`Acceso`). -/
structure Acceso where
  id_acceso : String
  cedula_usuario : String
  id_area : String
  fecha_entrada : FechaHora
  registro_exitoso_id : String
deriving DecidableEq, Repr

/-- The configurable fields of `ServicioAutenticacion` (the `self`
parameters the validators read). -/
structure Config where
  max_intentos_rfid : Nat := 3
  max_intentos_pin : Nat := 3
  umbral_similitud_patron : ℚ := 9 / 10
deriving DecidableEq, Repr

/-- The error outcomes of the service, carrying the data the Python
exception messages report.  `patronVacio` is the `ValidacionError`;
every other constructor is an `AutenticacionError`. -/
inductive AuthErr where
  | rfidNoCorresponde
  | rfidInvalida
  | pinBloqueado
  | pinIncorrecto
  | pinIncompleto
  | patronVacio
  | patronNoCoincide (similitud umbral : ℚ)
  | timingsFueraTolerancia
  | patronIncompleto
deriving DecidableEq, Repr

/-- Whether an error outcome is an `AutenticacionError` (as opposed to
the `ValidacionError` raised for an empty capture). -/
def AuthErr.esAutenticacion : AuthErr → Bool
  | .patronVacio => false
  | _ => true

instance {ε α : Type} [DecidableEq ε] [DecidableEq α] :
    DecidableEq (Except ε α) := fun a b =>
  match a, b with
  | .ok x, .ok y =>
    if h : x = y then isTrue (by rw [h]) else isFalse (by simp [h])
  | .error e, .error f =>
    if h : e = f then isTrue (by rw [h]) else isFalse (by simp [h])
  | .ok _, .error _ => isFalse (by simp)
  | .error _, .ok _ => isFalse (by simp)

/-- `ServicioAutenticacion.validar_rfid`, on the credential the
repository returned for the serial.  Returns the credential after the
in-place mutations together with the outcome. -/
def validar_rfid (cfg : Config) (cred : Credencial) (cedula_esperada : String)
    (ahora : FechaHora) : Credencial × Except AuthErr Unit :=
  if cred.cedula_propietario ≠ cedula_esperada then
    ({ cred with intentos_fallidos := cred.intentos_fallidos + 1 },
      .error .rfidNoCorresponde)
  else if ¬ cred.esta_vigente ahora.date then
    let c1 := { cred with intentos_fallidos := cred.intentos_fallidos + 1 }
    let c2 := if ahora.date > cred.fecha_expiracion then
        { c1 with estado := EstadoCredencial.EXPIRADA }
      else c1
    (c2, .error .rfidInvalida)
  else
    ({ cred with
        intentos_exitosos := cred.intentos_exitosos + 1,
        intentos_fallidos := 0,
        ultimo_acceso := some ahora }, .ok ())

/-- `ServicioAutenticacion.validar_pin`, on the PIN the repository
returned for the area.  Returns the PIN after the in-place mutations
together with the outcome. -/
def validar_pin (cfg : Config) (pin : Pin) (secuencia_capturada : List Int) :
    Pin × Except AuthErr Unit :=
  if pin.estado = EstadoPin.BLOQUEADO then
    (pin, .error .pinBloqueado)
  else if secuencia_capturada ≠ pin.secuencia_gestos then
    let p1 := { pin with intentos_fallidos := pin.intentos_fallidos + 1 }
    let p2 := if p1.intentos_fallidos ≥ cfg.max_intentos_pin then
        { p1 with estado := EstadoPin.BLOQUEADO }
      else p1
    (p2, .error .pinIncorrecto)
  else
    ({ pin with intentos_fallidos := 0 }, .ok ())

/-- The similarity loop of `validar_patron`: count of positions over the
overlap of the two sequences where the elements agree. -/
def contarMatches (ref cap : List Int) : Nat :=
  (ref.zip cap).countP (fun p => p.1 == p.2)

/-- The timing loop of `validar_patron`: for each paired (reference
delta, captured delta), skip zero reference deltas, otherwise require
the captured delta inside the ±40% band; fail on the first violation. -/
def revisarTiempos : List (ℚ × ℚ) → Except AuthErr Unit
  | [] => .ok ()
  | (ref, got) :: rest =>
    if ref = 0 then revisarTiempos rest
    else if 0.6 * ref ≤ got ∧ got ≤ 1.4 * ref then revisarTiempos rest
    else .error .timingsFueraTolerancia

/-- `ServicioAutenticacion.validar_patron`, on the pattern the
repository returned for the user.  The pattern is never mutated, so only
the outcome is returned. -/
def validar_patron (cfg : Config) (patron : Patron)
    (secuencia_capturada : List Int) (tiempos : Option (List ℚ)) :
    Except AuthErr Unit :=
  if secuencia_capturada.length = 0 then .error .patronVacio
  else
    let n := max patron.secuencia_gestos.length secuencia_capturada.length
    let m := contarMatches patron.secuencia_gestos secuencia_capturada
    let similitud : ℚ := (m : ℚ) / (n : ℚ)
    if similitud < cfg.umbral_similitud_patron then
      .error (.patronNoCoincide similitud cfg.umbral_similitud_patron)
    else
      match patron.tiempos_entre_gestos, tiempos with
      | some refT, some gotT =>
        if refT.length = gotT.length then revisarTiempos (refT.zip gotT)
        else .ok ()
      | _, _ => .ok ()

/-- Observable collaborator calls made by the orchestrator, in order. -/
inductive Evento where
  | valRfid
  | valPin
  | valPatron
  | indicarExito
  | abrirPuerta
  | agregarAcceso (a : Acceso)
deriving DecidableEq, Repr

/-- The entities the three repositories hold for this run. -/
structure MfaState where
  cred : Credencial
  pin : Pin
  patron : Patron
deriving DecidableEq, Repr

/-- `ServicioAutenticacion.autenticar_mfa`.  External nondeterminism is
passed in: `ahora` is the single `datetime.now()` sampled at the start,
`captura_pin` / `captura_patron` are what the two sensor collaborators
return from `capturar_secuencia`, and `fresh_id` is the `uuid4` string.
Returns the updated entities, the trace of collaborator calls, and
either the persisted access record or the error raised. -/
def autenticar_mfa (cfg : Config) (st : MfaState)
    (cedula id_area : String)
    (captura_pin : List Int × Option (List ℚ))
    (captura_patron : List Int × Option (List ℚ))
    (ahora : FechaHora) (fresh_id : String) :
    MfaState × List Evento × Except AuthErr Acceso :=
  -- Factor 1: RFID
  let r1 := validar_rfid cfg st.cred cedula ahora
  let st1 := { st with cred := r1.1 }
  match r1.2 with
  | .error e => (st1, [.valRfid], .error e)
  | .ok () =>
    -- Factor 2: PIN gestual (4)
    let sec_pin := captura_pin.1
    if sec_pin.length ≠ 4 then
      (st1, [.valRfid], .error .pinIncompleto)
    else
      let r2 := validar_pin cfg st1.pin sec_pin
      let st2 := { st1 with pin := r2.1 }
      match r2.2 with
      | .error e => (st2, [.valRfid, .valPin], .error e)
      | .ok () =>
        -- Factor 3: Patrón biométrico (10)
        let sec_pat := captura_patron.1
        let tiempos := captura_patron.2
        if sec_pat.length ≠ 10 then
          (st2, [.valRfid, .valPin], .error .patronIncompleto)
        else
          match validar_patron cfg st2.patron sec_pat tiempos with
          | .error e => (st2, [.valRfid, .valPin, .valPatron], .error e)
          | .ok () =>
            let acceso : Acceso :=
              { id_acceso := fresh_id
                cedula_usuario := cedula
                id_area := id_area
                fecha_entrada := ahora
                registro_exitoso_id := "" }
            (st2,
              [.valRfid, .valPin, .valPatron,
               .indicarExito, .abrirPuerta, .agregarAcceso acceso],
              .ok acceso)

/-! ## Concrete sample entities used by the witnesses -/

/-- A credential owned by user "123", expiring on day 100, currently
ACTIVE, with some accumulated counters. -/
def credW : Credencial :=
  { cedula_propietario := "123", fecha_expiracion := 100,
    estado := EstadoCredencial.ACTIVA, intentos_fallidos := 2,
    intentos_exitosos := 5, ultimo_acceso := none }

/-- A BLOCKED credential owned by user "123", expired on day 10. -/
def credBloqW : Credencial :=
  { cedula_propietario := "123", fecha_expiracion := 10,
    estado := EstadoCredencial.BLOQUEADA, intentos_fallidos := 1,
    intentos_exitosos := 0, ultimo_acceso := none }

/-- An ACTIVE 4-gesture PIN for area "A1" with one accumulated failure. -/
def pinW : Pin :=
  { id_area := "A1", secuencia_gestos := [1, 2, 3, 4],
    estado := EstadoPin.ACTIVO, intentos_fallidos := 1 }

/-- A BLOCKED PIN for area "A1". -/
def pinBloqW : Pin :=
  { id_area := "A1", secuencia_gestos := [1, 2, 3, 4],
    estado := EstadoPin.BLOQUEADO, intentos_fallidos := 3 }

/-- A 10-gesture reference pattern for user "123", without timing data. -/
def patronW : Patron :=
  { cedula := "123", secuencia_gestos := [1, 2, 3, 4, 5, 6, 7, 8, 9, 10],
    tiempos_entre_gestos := none }

/-- The same reference pattern with timing data. -/
def patronTiemposW : Patron :=
  { patronW with tiempos_entre_gestos := some [10, 20, 0, 5] }

/-- Repositories holding a valid credential, an ACTIVE PIN and the
reference pattern: the full-success configuration. -/
def stW : MfaState := { cred := credW, pin := pinW, patron := patronW }

/-! ## Theorems -/

/-- C6: for every credential whose owning user does not match the expected
user, `validar_rfid` increments the failed-attempt count by exactly 1,
leaves every other field (including the lifecycle state) unchanged, and
raises `AutenticacionError` ("RFID no corresponde al usuario."). -/
theorem validar_rfid_propietario_distinto (cfg : Config) (cred : Credencial)
    (cedula : String) (ahora : FechaHora)
    (h : cred.cedula_propietario ≠ cedula) :
    validar_rfid cfg cred cedula ahora =
      ({ cred with intentos_fallidos := cred.intentos_fallidos + 1 },
        .error .rfidNoCorresponde) := by
  simp [validar_rfid, h]

/-- Witness for C6 at a concrete credential. -/
theorem validar_rfid_propietario_distinto_witness :
    validar_rfid {} credW "999" ⟨50, 7⟩ =
      ({ credW with intentos_fallidos := 3 }, .error .rfidNoCorresponde) :=
  validar_rfid_propietario_distinto {} credW "999" ⟨50, 7⟩ (by decide)

/-- C5: for a credential whose owner matches but which is not currently
valid at the evaluation date, `validar_rfid` increments the failed-attempt
count, moves the state to EXPIRADA exactly when the evaluation date is
strictly past the expiration date (otherwise the state is untouched, so
BLOCKED/INACTIVE causes never change the state), leaves all other fields
unchanged, and raises `AutenticacionError`; and validity itself requires
state ACTIVE together with evaluation date ≤ expiration date. -/
theorem validar_rfid_no_vigente (cfg : Config) (cred : Credencial)
    (cedula : String) (ahora : FechaHora)
    (hown : cred.cedula_propietario = cedula)
    (hv : cred.esta_vigente ahora.date = false) :
    (∀ (c : Credencial) (f : Int),
        c.esta_vigente f = true ↔
          c.estado = EstadoCredencial.ACTIVA ∧ f ≤ c.fecha_expiracion) ∧
    (validar_rfid cfg cred cedula ahora).2 = .error .rfidInvalida ∧
    (validar_rfid cfg cred cedula ahora).1 =
      { cred with
          intentos_fallidos := cred.intentos_fallidos + 1,
          estado := if ahora.date > cred.fecha_expiracion then
              EstadoCredencial.EXPIRADA
            else cred.estado } := by
  refine ⟨fun c f => ?_, ?_⟩
  · simp [Credencial.esta_vigente]
  · simp only [validar_rfid, hown, ne_eq, not_true_eq_false, if_false, hv,
      Bool.false_eq_true, not_false_eq_true, if_true]
    split <;> simp

/-- Witness for C5: a BLOCKED credential evaluated before its expiration
date fails without any state change. -/
theorem validar_rfid_no_vigente_witness :
    credBloqW.esta_vigente 5 = false ∧
    (validar_rfid {} credBloqW "123" ⟨5, 0⟩).2 = .error .rfidInvalida ∧
    (validar_rfid {} credBloqW "123" ⟨5, 0⟩).1 =
      { credBloqW with intentos_fallidos := 2,
                       estado := EstadoCredencial.BLOQUEADA } := by
  refine ⟨by decide, ?_, ?_⟩
  · exact (validar_rfid_no_vigente {} credBloqW "123" ⟨5, 0⟩ rfl (by decide)).2.1
  · exact (validar_rfid_no_vigente {} credBloqW "123" ⟨5, 0⟩ rfl (by decide)).2.2

/-- C9: `validar_rfid` reads nothing from the service configuration (in
particular `max_intentos_rfid` is never consulted, so no lockout
threshold exists on the RFID path), and it never transitions a
credential into the BLOQUEADA state: if the resulting state is
BLOQUEADA, the credential was already BLOQUEADA before the call. -/
theorem validar_rfid_sin_bloqueo (cfg cfg' : Config) (cred : Credencial)
    (cedula : String) (ahora : FechaHora) :
    validar_rfid cfg cred cedula ahora = validar_rfid cfg' cred cedula ahora ∧
    ((validar_rfid cfg cred cedula ahora).1.estado =
        EstadoCredencial.BLOQUEADA →
      cred.estado = EstadoCredencial.BLOQUEADA) := by
  refine ⟨rfl, ?_⟩
  simp only [validar_rfid]
  split
  · simp
  · split
    · split <;> simp_all
    · simp

/-- Witness for C9: a config with a huge RFID attempt maximum and one
with zero give identical results; a blocked result presupposes an
already-blocked credential. -/
theorem validar_rfid_sin_bloqueo_witness :
    validar_rfid { max_intentos_rfid := 1000000 } credBloqW "999" ⟨5, 0⟩ =
      validar_rfid { max_intentos_rfid := 0 } credBloqW "999" ⟨5, 0⟩ ∧
    credBloqW.estado = EstadoCredencial.BLOQUEADA :=
  ⟨(validar_rfid_sin_bloqueo { max_intentos_rfid := 1000000 }
      { max_intentos_rfid := 0 } credBloqW "999" ⟨5, 0⟩).1,
   (validar_rfid_sin_bloqueo { max_intentos_rfid := 1000000 }
      { max_intentos_rfid := 0 } credBloqW "999" ⟨5, 0⟩).2 (by decide)⟩

/-- C10: a matching-owner credential whose expiration date is strictly
before the evaluation date has its state overwritten to EXPIRADA by the
failed validation, even when the prior state was BLOQUEADA or INACTIVA. -/
theorem validar_rfid_sobrescribe_expirada (cfg : Config) (cred : Credencial)
    (cedula : String) (ahora : FechaHora)
    (hown : cred.cedula_propietario = cedula)
    (hst : cred.estado = EstadoCredencial.BLOQUEADA ∨
           cred.estado = EstadoCredencial.INACTIVA)
    (hexp : cred.fecha_expiracion < ahora.date) :
    (validar_rfid cfg cred cedula ahora).1.estado =
        EstadoCredencial.EXPIRADA ∧
    (validar_rfid cfg cred cedula ahora).2 = .error .rfidInvalida := by
  have hv : cred.esta_vigente ahora.date = false := by
    rcases hst with h | h <;> simp [Credencial.esta_vigente, h]
  simp only [validar_rfid, hown, ne_eq, not_true_eq_false, if_false, hv,
    Bool.false_eq_true, not_false_eq_true, if_true, gt_iff_lt, hexp]
  simp

/-- Witness for C10: a BLOCKED credential, expired by date, ends up
EXPIRADA. -/
theorem validar_rfid_sobrescribe_expirada_witness :
    credBloqW.estado = EstadoCredencial.BLOQUEADA ∧
    (validar_rfid {} credBloqW "123" ⟨50, 0⟩).1.estado =
        EstadoCredencial.EXPIRADA ∧
    (validar_rfid {} credBloqW "123" ⟨50, 0⟩).2 = .error .rfidInvalida :=
  ⟨by decide,
   validar_rfid_sobrescribe_expirada {} credBloqW "123" ⟨50, 0⟩ rfl
     (Or.inl (by decide)) (by decide)⟩

/-- C3: for an ACTIVE PIN with failed-attempt count k and a captured
sequence different from the reference, `validar_pin` increments the
count to k+1, sets the state to BLOQUEADO exactly when k+1 reaches the
configured maximum `max_intentos_pin` (otherwise the state stays
ACTIVO), and raises `AutenticacionError` ("PIN gestual incorrecto."). -/
theorem validar_pin_incorrecto (cfg : Config) (pin : Pin) (sec : List Int)
    (hst : pin.estado = EstadoPin.ACTIVO)
    (hne : sec ≠ pin.secuencia_gestos) :
    (validar_pin cfg pin sec).1.intentos_fallidos =
        pin.intentos_fallidos + 1 ∧
    ((validar_pin cfg pin sec).1.estado = EstadoPin.BLOQUEADO ↔
        pin.intentos_fallidos + 1 ≥ cfg.max_intentos_pin) ∧
    (pin.intentos_fallidos + 1 < cfg.max_intentos_pin →
        (validar_pin cfg pin sec).1.estado = EstadoPin.ACTIVO) ∧
    (validar_pin cfg pin sec).2 = .error .pinIncorrecto := by
  simp only [validar_pin, hst, reduceCtorEq, if_false, hne, ne_eq,
    not_false_eq_true, if_true, ge_iff_le]
  refine ⟨?_, ?_, ?_, ?_⟩
  · split <;> simp
  · split <;> simp_all
  · intro hlt
    rw [if_neg (by omega)]
  · trivial

/-- Witness for C3: `pinW` has one prior failure; with the default
maximum of 3, a second mismatch leaves it ACTIVE with count 2. -/
theorem validar_pin_incorrecto_witness :
    pinW.estado = EstadoPin.ACTIVO ∧
    (validar_pin {} pinW [9, 9, 9, 9]).1.intentos_fallidos = 2 ∧
    ¬ ((validar_pin {} pinW [9, 9, 9, 9]).1.estado = EstadoPin.BLOQUEADO) ∧
    (validar_pin {} pinW [9, 9, 9, 9]).1.estado = EstadoPin.ACTIVO ∧
    (validar_pin {} pinW [9, 9, 9, 9]).2 = .error .pinIncorrecto := by
  have h := validar_pin_incorrecto {} pinW [9, 9, 9, 9] (by decide) (by decide)
  refine ⟨by decide, h.1, ?_, h.2.2.1 (by decide), h.2.2.2⟩
  intro hb
  exact absurd (h.2.1.mp hb) (by decide)

/-- C4: for a BLOCKED PIN, `validar_pin` raises `AutenticacionError`
("PIN gestual bloqueado...") for every captured sequence and returns the
PIN entirely unchanged; consequently any number of further validation
attempts leaves it BLOCKED with the same failure count. -/
theorem validar_pin_bloqueado (cfg : Config) (pin : Pin) (sec : List Int)
    (hst : pin.estado = EstadoPin.BLOQUEADO) :
    validar_pin cfg pin sec = (pin, .error .pinBloqueado) ∧
    (∀ (caps : List (List Int)),
        caps.foldl (fun p s => (validar_pin cfg p s).1) pin = pin) := by
  have hone : ∀ s : List Int, validar_pin cfg pin s = (pin, .error .pinBloqueado) := by
    intro s
    simp [validar_pin, hst]
  refine ⟨hone sec, fun caps => ?_⟩
  induction caps with
  | nil => rfl
  | cons c cs ih =>
    simpa [List.foldl_cons, hone c] using ih

/-- Witness for C4: a blocked PIN rejects even the correct sequence and
is unchanged after a further batch of attempts. -/
theorem validar_pin_bloqueado_witness :
    pinBloqW.estado = EstadoPin.BLOQUEADO ∧
    validar_pin {} pinBloqW [1, 2, 3, 4] = (pinBloqW, .error .pinBloqueado) ∧
    [[1, 2, 3, 4], [9, 9, 9, 9]].foldl
        (fun p s => (validar_pin ({} : Config) p s).1) pinBloqW = pinBloqW := by
  have h := validar_pin_bloqueado {} pinBloqW [1, 2, 3, 4] (by decide)
  exact ⟨by decide, h.1, h.2 [[1, 2, 3, 4], [9, 9, 9, 9]]⟩

/-- The match count as the spec phrases it: the number of positions `i`
over the overlap `0..min(len(reference), len(captured))` at which
`reference[i] == captured[i]`. -/
def matchesSpec (ref cap : List Int) : Nat :=
  (List.range (min ref.length cap.length)).countP
    (fun i => ref.get? i == cap.get? i)

/-- The source's similarity loop computes exactly the spec's count. -/
lemma contarMatches_eq_matchesSpec (ref cap : List Int) :
    contarMatches ref cap = matchesSpec ref cap := by
  induction ref generalizing cap with
  | nil => simp [contarMatches, matchesSpec]
  | cons a ref ih =>
    cases cap with
    | nil => simp [contarMatches, matchesSpec]
    | cons b cap =>
      have h := ih cap
      simp only [contarMatches, matchesSpec] at h ⊢
      simp only [List.zip_cons_cons, List.countP_cons, List.length_cons,
        Nat.succ_min_succ, List.range_succ_eq_map, List.countP_map,
        Function.comp, h]
      rfl

/-- The timing loop never produces a similarity-mismatch error. -/
lemma revisarTiempos_ne_patronNoCoincide (l : List (ℚ × ℚ)) (s u : ℚ) :
    revisarTiempos l ≠ .error (.patronNoCoincide s u) := by
  induction l with
  | nil => simp [revisarTiempos]
  | cons p rest ih =>
    obtain ⟨r, g⟩ := p
    simp only [revisarTiempos]
    split
    · exact ih
    · split
      · exact ih
      · simp

/-- C2: for a non-empty capture, `validar_patron` raises the
similarity-mismatch `AutenticacionError` — carrying the computed
similarity `matches / n` (with `n` the longer length) and the threshold —
exactly when that similarity is strictly below
`umbral_similitud_patron`; a similarity equal to the threshold passes.
The match count is the spec's count of agreeing overlap positions. -/
theorem validar_patron_similitud (cfg : Config) (patron : Patron)
    (sec : List Int) (tiempos : Option (List ℚ))
    (hne : sec ≠ []) :
    (∀ (ref cap : List Int), contarMatches ref cap = matchesSpec ref cap) ∧
    (validar_patron cfg patron sec tiempos =
        .error (.patronNoCoincide
          ((contarMatches patron.secuencia_gestos sec : ℚ) /
            ((max patron.secuencia_gestos.length sec.length : Nat) : ℚ))
          cfg.umbral_similitud_patron) ↔
      (contarMatches patron.secuencia_gestos sec : ℚ) /
          ((max patron.secuencia_gestos.length sec.length : Nat) : ℚ) <
        cfg.umbral_similitud_patron) := by
  refine ⟨contarMatches_eq_matchesSpec, ?_⟩
  have hlen : ¬ sec.length = 0 := by simpa using hne
  unfold validar_patron
  rw [if_neg hlen]
  show (if ((contarMatches patron.secuencia_gestos sec : ℚ) /
      ((max patron.secuencia_gestos.length sec.length : Nat) : ℚ) <
      cfg.umbral_similitud_patron) then _ else _) = _ ↔ _
  by_cases hlt : (contarMatches patron.secuencia_gestos sec : ℚ) /
      ((max patron.secuencia_gestos.length sec.length : Nat) : ℚ) <
    cfg.umbral_similitud_patron
  · rw [if_pos hlt]
    exact iff_of_true rfl hlt
  · rw [if_neg hlt]
    refine iff_of_false ?_ hlt
    cases patron.tiempos_entre_gestos with
    | none => simp
    | some refT =>
      cases tiempos with
      | none => simp
      | some gotT =>
        by_cases hl : refT.length = gotT.length
        · simpa [hl] using revisarTiempos_ne_patronNoCoincide (refT.zip gotT) _ _
        · simp [hl]

set_option maxHeartbeats 1000000 in
/-- Witness for C2: against the 10-gesture reference, a capture agreeing
at 9 of 10 positions has similarity 9/10 — exactly the default threshold
— and passes, while a capture agreeing at 3 positions fails with the
mismatch error carrying similarity 3/10 and the threshold. -/
theorem validar_patron_similitud_witness :
    ([1, 2, 3, 4, 5, 6, 7, 8, 9, 99] : List Int) ≠ [] ∧
    validar_patron {} patronW [1, 2, 3, 4, 5, 6, 7, 8, 9, 99] none = .ok () ∧
    validar_patron {} patronW [1, 2, 3, 0, 0, 0, 0, 0, 0, 0] none =
      .error (.patronNoCoincide
        ((contarMatches patronW.secuencia_gestos
            [1, 2, 3, 0, 0, 0, 0, 0, 0, 0] : ℚ) /
          ((max patronW.secuencia_gestos.length
            ([1, 2, 3, 0, 0, 0, 0, 0, 0, 0] : List Int).length : Nat) : ℚ))
        ({} : Config).umbral_similitud_patron) := by
  refine ⟨by simp, ?_, ?_⟩
  · simp only [validar_patron, patronW]
    norm_num [contarMatches]
  · exact (validar_patron_similitud {} patronW [1, 2, 3, 0, 0, 0, 0, 0, 0, 0]
      none (by simp)).2.mpr (by norm_num [contarMatches, patronW])

/-- C8: when the similarity check passes, the timing check runs only if
both the reference and captured timing sequences are present with equal
lengths — if either is absent or the lengths differ the call succeeds on
similarity alone — and, when it runs, it processes the zipped pairs in
order: a zero reference delta is skipped, a nonzero one passes exactly
inside the inclusive ±40% band, and the first violating pair fails with
the timing `AutenticacionError` without examining any further pairs. -/
theorem validar_patron_tiempos (cfg : Config) (patron : Patron)
    (sec : List Int) (tiempos : Option (List ℚ))
    (hne : sec ≠ [])
    (hsim : ¬ ((contarMatches patron.secuencia_gestos sec : ℚ) /
        ((max patron.secuencia_gestos.length sec.length : Nat) : ℚ) <
      cfg.umbral_similitud_patron)) :
    (patron.tiempos_entre_gestos = none →
        validar_patron cfg patron sec tiempos = .ok ()) ∧
    (tiempos = none → validar_patron cfg patron sec tiempos = .ok ()) ∧
    (∀ (refT gotT : List ℚ), patron.tiempos_entre_gestos = some refT →
        tiempos = some gotT → refT.length ≠ gotT.length →
        validar_patron cfg patron sec tiempos = .ok ()) ∧
    (∀ (refT gotT : List ℚ), patron.tiempos_entre_gestos = some refT →
        tiempos = some gotT → refT.length = gotT.length →
        validar_patron cfg patron sec tiempos =
          revisarTiempos (refT.zip gotT)) ∧
    revisarTiempos [] = .ok () ∧
    (∀ (got : ℚ) (rest : List (ℚ × ℚ)),
        revisarTiempos ((0, got) :: rest) = revisarTiempos rest) ∧
    (∀ (ref got : ℚ) (rest : List (ℚ × ℚ)), ref ≠ 0 →
        0.6 * ref ≤ got → got ≤ 1.4 * ref →
        revisarTiempos ((ref, got) :: rest) = revisarTiempos rest) ∧
    (∀ (ref got : ℚ) (rest : List (ℚ × ℚ)), ref ≠ 0 →
        ¬ (0.6 * ref ≤ got ∧ got ≤ 1.4 * ref) →
        revisarTiempos ((ref, got) :: rest) =
          .error .timingsFueraTolerancia) := by
  have hlen : ¬ sec.length = 0 := by simpa using hne
  have key : validar_patron cfg patron sec tiempos =
      (match patron.tiempos_entre_gestos, tiempos with
       | some refT, some gotT =>
         if refT.length = gotT.length then revisarTiempos (refT.zip gotT)
         else .ok ()
       | _, _ => .ok ()) := by
    unfold validar_patron
    rw [if_neg hlen]
    show (if ((contarMatches patron.secuencia_gestos sec : ℚ) /
        ((max patron.secuencia_gestos.length sec.length : Nat) : ℚ) <
        cfg.umbral_similitud_patron) then _ else _) = _
    rw [if_neg hsim]
  refine ⟨?_, ?_, ?_, ?_, rfl, ?_, ?_, ?_⟩
  · intro h
    rw [key, h]
  · intro h
    rw [key, h]
    cases patron.tiempos_entre_gestos <;> rfl
  · intro refT gotT h1 h2 hne'
    rw [key, h1, h2]
    simp [hne']
  · intro refT gotT h1 h2 heq
    rw [key, h1, h2]
    simp [heq]
  · intro got rest
    simp [revisarTiempos]
  · intro ref got rest h0 hlo hhi
    simp only [revisarTiempos]
    rw [if_neg h0, if_pos ⟨hlo, hhi⟩]
  · intro ref got rest h0 hband
    simp only [revisarTiempos]
    rw [if_neg h0, if_neg hband]

set_option maxHeartbeats 1000000 in
/-- Witness for C8: a full-match capture with timing data present and of
equal length delegates to the timing loop; a zero reference delta is
skipped; a captured delta exactly at the +40% boundary passes; a delta
one beyond the band fails immediately with unchecked pairs remaining. -/
theorem validar_patron_tiempos_witness :
    validar_patron {} patronTiemposW [1, 2, 3, 4, 5, 6, 7, 8, 9, 10]
        (some [14, 12, 100, 7]) =
      revisarTiempos (([10, 20, 0, 5] : List ℚ).zip [14, 12, 100, 7]) ∧
    revisarTiempos [((0 : ℚ), (5 : ℚ))] = revisarTiempos [] ∧
    revisarTiempos [((10 : ℚ), (14 : ℚ))] = revisarTiempos [] ∧
    revisarTiempos (((10 : ℚ), (15 : ℚ)) :: [((0 : ℚ), (0 : ℚ))]) =
      .error .timingsFueraTolerancia := by
  have h := validar_patron_tiempos {} patronTiemposW
    [1, 2, 3, 4, 5, 6, 7, 8, 9, 10] (some [14, 12, 100, 7]) (by simp)
    (by norm_num [contarMatches, patronTiemposW, patronW])
  refine ⟨h.2.2.2.1 [10, 20, 0, 5] [14, 12, 100, 7] rfl rfl rfl, ?_, ?_, ?_⟩
  · exact h.2.2.2.2.2.1 5 []
  · exact h.2.2.2.2.2.2.1 10 14 [] (by norm_num) (by norm_num) (by norm_num)
  · exact h.2.2.2.2.2.2.2 10 15 [((0 : ℚ), (0 : ℚ))] (by norm_num)
      (by norm_num)

/-- C7: after a successful RFID factor, a PIN capture of length ≠ 4
aborts with the incomplete-capture `AutenticacionError` before the PIN
validator is ever invoked, leaving the PIN entity unchanged; likewise,
after a successful PIN factor, a pattern capture of length ≠ 10 aborts
before the pattern matcher is invoked, leaving the pattern unchanged. -/
theorem autenticar_mfa_captura_incompleta (cfg : Config) (st : MfaState)
    (cedula id_area : String)
    (cap_pin cap_pat : List Int × Option (List ℚ))
    (ahora : FechaHora) (fid : String)
    (hr : (validar_rfid cfg st.cred cedula ahora).2 = .ok ()) :
    (cap_pin.1.length ≠ 4 →
      autenticar_mfa cfg st cedula id_area cap_pin cap_pat ahora fid =
        ({ st with cred := (validar_rfid cfg st.cred cedula ahora).1 },
          [.valRfid], .error .pinIncompleto) ∧
      Evento.valPin ∉
        (autenticar_mfa cfg st cedula id_area cap_pin cap_pat ahora fid).2.1 ∧
      (autenticar_mfa cfg st cedula id_area cap_pin cap_pat ahora fid).1.pin =
        st.pin) ∧
    (cap_pin.1.length = 4 →
      (validar_pin cfg st.pin cap_pin.1).2 = .ok () →
      cap_pat.1.length ≠ 10 →
      autenticar_mfa cfg st cedula id_area cap_pin cap_pat ahora fid =
        ({ st with cred := (validar_rfid cfg st.cred cedula ahora).1,
                   pin := (validar_pin cfg st.pin cap_pin.1).1 },
          [.valRfid, .valPin], .error .patronIncompleto) ∧
      Evento.valPatron ∉
        (autenticar_mfa cfg st cedula id_area cap_pin cap_pat ahora fid).2.1 ∧
      (autenticar_mfa cfg st cedula id_area cap_pin cap_pat
          ahora fid).1.patron = st.patron) := by
  constructor
  · intro h4
    have key : autenticar_mfa cfg st cedula id_area cap_pin cap_pat ahora fid =
        ({ st with cred := (validar_rfid cfg st.cred cedula ahora).1 },
          [.valRfid], .error .pinIncompleto) := by
      simp only [autenticar_mfa, hr, h4, ne_eq, not_false_eq_true, if_true]
    refine ⟨key, ?_, ?_⟩ <;> rw [key] <;> simp
  · intro h4 hp h10
    have key : autenticar_mfa cfg st cedula id_area cap_pin cap_pat ahora fid =
        ({ st with cred := (validar_rfid cfg st.cred cedula ahora).1,
                   pin := (validar_pin cfg st.pin cap_pin.1).1 },
          [.valRfid, .valPin], .error .patronIncompleto) := by
      simp only [autenticar_mfa, hr, h4, hp, h10, ne_eq, not_false_eq_true,
        if_true, not_true_eq_false, if_false, reduceIte]
    refine ⟨key, ?_, ?_⟩ <;> rw [key] <;> simp

/-- Witness for C7: a 3-element PIN capture aborts after the RFID factor
with only the RFID validator invoked; a 3-element pattern capture aborts
after the PIN factor with only the first two validators invoked. -/
theorem autenticar_mfa_captura_incompleta_witness :
    autenticar_mfa {} stW "123" "A1" ([1, 2, 3], none) ([], none)
        ⟨50, 0⟩ "id0" =
      ({ stW with cred := (validar_rfid {} stW.cred "123" ⟨50, 0⟩).1 },
        [.valRfid], .error .pinIncompleto) ∧
    autenticar_mfa {} stW "123" "A1" ([1, 2, 3, 4], none) ([1, 2, 3], none)
        ⟨50, 0⟩ "id0" =
      ({ stW with cred := (validar_rfid {} stW.cred "123" ⟨50, 0⟩).1,
                  pin := (validar_pin {} stW.pin [1, 2, 3, 4]).1 },
        [.valRfid, .valPin], .error .patronIncompleto) :=
  ⟨((autenticar_mfa_captura_incompleta {} stW "123" "A1" ([1, 2, 3], none)
      ([], none) ⟨50, 0⟩ "id0" (by decide)).1 (by decide)).1,
   ((autenticar_mfa_captura_incompleta {} stW "123" "A1" ([1, 2, 3, 4], none)
      ([1, 2, 3], none) ⟨50, 0⟩ "id0" (by decide)).2 rfl (by decide)
      (by decide)).1⟩

/-- C1: when all three factors succeed, `autenticar_mfa` performs, after
the three validator calls, exactly one `indicar_exito` and one
`abrir_puerta` (in that order), then persists and returns an access
record carrying the supplied user id, the supplied area id, the single
evaluation timestamp sampled at the start (the one also given to the
RFID check), and an empty successful-validation reference. -/
theorem autenticar_mfa_exito (cfg : Config) (st : MfaState)
    (cedula id_area : String)
    (cap_pin cap_pat : List Int × Option (List ℚ))
    (ahora : FechaHora) (fid : String)
    (hr : (validar_rfid cfg st.cred cedula ahora).2 = .ok ())
    (h4 : cap_pin.1.length = 4)
    (hp : (validar_pin cfg st.pin cap_pin.1).2 = .ok ())
    (h10 : cap_pat.1.length = 10)
    (hpat : validar_patron cfg st.patron cap_pat.1 cap_pat.2 = .ok ()) :
    autenticar_mfa cfg st cedula id_area cap_pin cap_pat ahora fid =
      ({ st with cred := (validar_rfid cfg st.cred cedula ahora).1,
                 pin := (validar_pin cfg st.pin cap_pin.1).1 },
        [.valRfid, .valPin, .valPatron, .indicarExito, .abrirPuerta,
          .agregarAcceso ⟨fid, cedula, id_area, ahora, ""⟩],
        .ok ⟨fid, cedula, id_area, ahora, ""⟩) ∧
    (autenticar_mfa cfg st cedula id_area cap_pin cap_pat ahora fid).2.1.count
        Evento.indicarExito = 1 ∧
    (autenticar_mfa cfg st cedula id_area cap_pin cap_pat ahora fid).2.1.count
        Evento.abrirPuerta = 1 := by
  have key : autenticar_mfa cfg st cedula id_area cap_pin cap_pat ahora fid =
      ({ st with cred := (validar_rfid cfg st.cred cedula ahora).1,
                 pin := (validar_pin cfg st.pin cap_pin.1).1 },
        [.valRfid, .valPin, .valPatron, .indicarExito, .abrirPuerta,
          .agregarAcceso ⟨fid, cedula, id_area, ahora, ""⟩],
        .ok ⟨fid, cedula, id_area, ahora, ""⟩) := by
    simp only [autenticar_mfa, hr, h4, hp, h10, hpat, ne_eq,
      not_true_eq_false, if_false, reduceIte]
  refine ⟨key, ?_, ?_⟩ <;> rw [key] <;> simp [List.count_cons]

set_option maxHeartbeats 1000000 in
/-- Witness for C1: a valid credential, exact PIN capture and exact
pattern capture produce the full success trace with the persisted access
record. -/
theorem autenticar_mfa_exito_witness :
    autenticar_mfa {} stW "123" "A1" ([1, 2, 3, 4], none)
        ([1, 2, 3, 4, 5, 6, 7, 8, 9, 10], none) ⟨50, 0⟩ "id1" =
      ({ stW with cred := (validar_rfid {} stW.cred "123" ⟨50, 0⟩).1,
                  pin := (validar_pin {} stW.pin [1, 2, 3, 4]).1 },
        [.valRfid, .valPin, .valPatron, .indicarExito, .abrirPuerta,
          .agregarAcceso ⟨"id1", "123", "A1", ⟨50, 0⟩, ""⟩],
        .ok ⟨"id1", "123", "A1", ⟨50, 0⟩, ""⟩) :=
  (autenticar_mfa_exito {} stW "123" "A1" ([1, 2, 3, 4], none)
    ([1, 2, 3, 4, 5, 6, 7, 8, 9, 10], none) ⟨50, 0⟩ "id1" (by decide)
    (by decide) (by decide) (by decide)
    (by simp only [validar_patron, stW, patronW]; norm_num [contarMatches])).1
